import Mathlib

/-!
Verification of the Gross-Profit-Margin task-pane handler
(`src/taskpane/taskpane.js`, function `runGpmCalculation`).

The handler reads the data-body rows of table `InputData` on sheet
`DataSheet`, aggregates the amounts of rows whose (trimmed) period label
equals the user-entered period (trimmed) into a revenue bucket and a cogs
bucket keyed by the trimmed lower-cased account label, validates the
result, computes gross profit and gross-profit margin, and replaces the
worksheet `GPM_<period>` with a fixed 7 by 2 output block.

The embedding below models spreadsheet cell values, JavaScript truthiness
and string coercion as used by the handler, the row scan as a left fold,
and the effect on the host document as a workbook transformer together
with a trace of host-document operations.  Amounts are rationals: the
source arithmetic (`+`, `-`, `/` guarded by `revenue > 0`) is modelled
exactly.
-/

/-- A spreadsheet cell value as delivered by `range.values`: a string, a
number, a boolean, or null (empty cell). -/
inductive CellVal where
  | str (s : String)
  | num (q : ℚ)
  | boolean (b : Bool)
  | null
deriving DecidableEq, Repr

/-- JavaScript truthiness of a cell value, as used by the guards
`row[1] ? ... : ""` and `row[0] ? ... : ""` (lines 65-66 of the source). -/
def jsTruthy : CellVal → Bool
  | .str s => !(s = "")
  | .num q => decide (q ≠ 0)
  | .boolean b => b
  | .null => false

/-- JavaScript `.trim()`: strip leading and trailing whitespace, modelled
on the character list of the string. -/
def jsTrim (s : String) : String :=
  ⟨(((s.data.dropWhile Char.isWhitespace).reverse).dropWhile
      Char.isWhitespace).reverse⟩

/-- JavaScript `.toLowerCase()`, modelled characterwise. -/
def jsToLower (s : String) : String :=
  ⟨s.data.map Char.toLower⟩

/-- JavaScript `String(v)` coercion as applied to a cell value. -/
def jsString : CellVal → String
  | .str s => s
  | .num q => toString q
  | .boolean b => if b then "true" else "false"
  | .null => "null"

/-- One data-body row of the `InputData` table: column 0 is the account
label, column 1 the period label, column 2 the amount. -/
structure Row where
  account : CellVal
  period : CellVal
  amount : CellVal
deriving DecidableEq, Repr

/-- `const currentPeriod = row[1] ? String(row[1]).trim() : ""` (line 65). -/
def normPeriod (c : CellVal) : String :=
  if jsTruthy c then jsTrim (jsString c) else ""

/-- `const currentAccount = row[0] ? String(row[0]).trim().toLowerCase() : ""`
(line 66). -/
def normAccount (c : CellVal) : String :=
  if jsTruthy c then jsToLower (jsTrim (jsString c)) else ""

/-- `const currentAmount = typeof row[2] is number-typed, giving row[2], else 0`
(line 68): non-numeric amounts are silently coerced to 0. -/
def currentAmountOf : CellVal → ℚ
  | .num q => q
  | _ => 0

/-- The aggregation state of the handler: two running sums and two found flags
(lines 55-58). -/
structure Agg where
  revenue : ℚ
  cogs : ℚ
  foundRevenue : Bool
  foundCogs : Bool
deriving DecidableEq, Repr

/-- The body of the row loop (lines 62-84): a row whose normalized period
equals the trimmed input period feeds the revenue bucket when its
normalized account is "revenue", the cogs bucket when it is "cogs", and is
otherwise ignored. -/
def processRow (trimmedPeriod : String) (acc : Agg) (row : Row) : Agg :=
  if normPeriod row.period = trimmedPeriod then
    if normAccount row.account = "revenue" then
      { acc with revenue := acc.revenue + currentAmountOf row.amount,
                 foundRevenue := true }
    else if normAccount row.account = "cogs" then
      { acc with cogs := acc.cogs + currentAmountOf row.amount,
                 foundCogs := true }
    else acc
  else acc

/-- The whole row loop, started from the initial state of lines 55-58. -/
def aggregate (trimmedPeriod : String) (rows : List Row) : Agg :=
  rows.foldl (processRow trimmedPeriod) ⟨0, 0, false, false⟩

/-- The outcome of one invocation of the handler, one constructor per
status path of the source. -/
inductive GpmResult where
  | validationError
  | noRevenue (period : String)
  | noCogs (period : String)
  | nonPositiveRevenue (revenue : ℚ) (period : String)
  | success (period : String) (revenue cogs grossProfit margin : ℚ)
deriving DecidableEq, Repr

/-- The status line displayed for each outcome, exactly the strings of
lines 29, 89, 93, 98 and 162 of the source. -/
def statusMessage : GpmResult → String
  | .validationError => "Error: Please enter a period."
  | .noRevenue p =>
      "Error: No \x27Revenue\x27 found for period " ++ p ++ "."
  | .noCogs p =>
      "Error: No \x27COGS\x27 found for period " ++ p ++ "."
  | .nonPositiveRevenue r p =>
      "Error: Revenue (" ++ toString r ++
        ") is zero or negative for period " ++ p ++ ". Cannot calculate margin."
  | .success p _ _ _ _ =>
      "Calculation complete. Results on sheet \x27GPM_" ++ p ++ "\x27."

/-- A host-document operation issued by the handler. -/
inductive DocOp where
  | readTable (sheet table : String)
  | checkSheet (name : String)
  | deleteSheet (name : String)
  | addSheet (name : String)
  | writeRange (sheet range : String) (values : List (List CellVal))
  | setNumberFormat (sheet range fmt : String)
  | setBold (sheet range : String)
  | autofitColumns (sheet range : String)
  | activate (sheet : String)
deriving DecidableEq, Repr

/-- The host workbook as far as the handler touches it: the data-body rows
of `InputData`, and the named sheets with their written cell contents. -/
structure Workbook where
  dataRows : List Row
  sheets : List (String × List (List CellVal))
deriving DecidableEq, Repr

/-- `getItemOrNullObject(name)` existence check (line 111-117). -/
def sheetExists (wb : Workbook) (name : String) : Bool :=
  wb.sheets.any (fun s => s.1 = name)

/-- `existingSheet.delete()` (line 119). -/
def deleteSheetW (wb : Workbook) (name : String) : Workbook :=
  { wb with sheets := wb.sheets.filter (fun s => !(s.1 = name)) }

/-- `worksheets.add(name)` followed by writing `values` to it
(lines 125, 142). -/
def addSheetW (wb : Workbook) (name : String) (values : List (List CellVal)) :
    Workbook :=
  { wb with sheets := (name, values) :: wb.sheets }

/-- The 7 by 2 output block of lines 129-137. -/
def outputData (trimmedPeriod : String) (revenue cogs grossProfit margin : ℚ) :
    List (List CellVal) :=
  [ [.str "Period:", .str trimmedPeriod],
    [.null, .null],
    [.str "Metric", .str "Value"],
    [.str "Revenue", .num revenue],
    [.str "COGS", .num cogs],
    [.str "Gross Profit", .num grossProfit],
    [.str "Gross Profit Margin", .num margin] ]

/-- The full handler `runGpmCalculation` (lines 24-178) as a function of
the period text-field value and the workbook: it returns the outcome, the
trace of host-document operations issued, and the updated workbook. -/
def runGpmCalculation (periodInput : String) (wb : Workbook) :
    GpmResult × List DocOp × Workbook :=
  if periodInput = "" ∨ jsTrim periodInput = "" then
    (.validationError, [], wb)
  else
    let trimmedPeriod := jsTrim periodInput
    let readOps : List DocOp := [.readTable "DataSheet" "InputData"]
    let agg := aggregate trimmedPeriod wb.dataRows
    if !agg.foundRevenue then
      (.noRevenue trimmedPeriod, readOps, wb)
    else if !agg.foundCogs then
      (.noCogs trimmedPeriod, readOps, wb)
    else if agg.revenue ≤ 0 then
      (.nonPositiveRevenue agg.revenue trimmedPeriod, readOps, wb)
    else
      let grossProfit := agg.revenue - agg.cogs
      let grossProfitMargin := grossProfit / agg.revenue
      let outputSheetName := "GPM_" ++ trimmedPeriod
      let out := outputData trimmedPeriod agg.revenue agg.cogs grossProfit
        grossProfitMargin
      let delOps : List DocOp :=
        if sheetExists wb outputSheetName then [.deleteSheet outputSheetName]
        else []
      let wb1 :=
        if sheetExists wb outputSheetName then deleteSheetW wb outputSheetName
        else wb
      let wb2 := addSheetW wb1 outputSheetName out
      (.success trimmedPeriod agg.revenue agg.cogs grossProfit grossProfitMargin,
       readOps ++ [.checkSheet outputSheetName] ++ delOps ++
         [.addSheet outputSheetName,
          .writeRange outputSheetName "A1:B7" out,
          .setNumberFormat outputSheetName "B4:B6" "$#,##0.00",
          .setNumberFormat outputSheetName "B7" "0.00%",
          .setBold outputSheetName "A1:B1",
          .setBold outputSheetName "A3:B3",
          .autofitColumns outputSheetName "A1:B7",
          .activate outputSheetName],
       wb2)

/-- A row feeding the revenue bucket for period `p`. -/
def isRevRow (p : String) (r : Row) : Bool :=
  normPeriod r.period = p && normAccount r.account = "revenue"

/-- A row feeding the cogs bucket for period `p`. -/
def isCogsRow (p : String) (r : Row) : Bool :=
  normPeriod r.period = p && !(normAccount r.account = "revenue") &&
    normAccount r.account = "cogs"

/-- Sum of the amounts of the revenue rows for period `p`. -/
def sumRevenue (p : String) (rows : List Row) : ℚ :=
  ((rows.filter (isRevRow p)).map (fun r => currentAmountOf r.amount)).sum

/-- Sum of the amounts of the cogs rows for period `p`. -/
def sumCogs (p : String) (rows : List Row) : ℚ :=
  ((rows.filter (isCogsRow p)).map (fun r => currentAmountOf r.amount)).sum

/-- `needle` occurs verbatim inside `hay`. -/
def occursIn (needle hay : String) : Prop :=
  ∃ a b, hay = a ++ needle ++ b

/-- Characterization of the row loop started from an arbitrary state: sums
accumulate over the matching rows, flags record their presence. -/
lemma foldl_processRow (p : String) (rows : List Row) (acc : Agg) :
    rows.foldl (processRow p) acc =
      ⟨acc.revenue + sumRevenue p rows, acc.cogs + sumCogs p rows,
       acc.foundRevenue || rows.any (isRevRow p),
       acc.foundCogs || rows.any (isCogsRow p)⟩ := by
  induction rows generalizing acc with
  | nil => simp [sumRevenue, sumCogs]
  | cons r rs ih =>
    by_cases h1 : normPeriod r.period = p
    · by_cases h2 : normAccount r.account = "revenue"
      · simp [List.foldl_cons, ih, processRow, sumRevenue, sumCogs,
          isRevRow, isCogsRow, h1, h2, List.filter_cons, List.any_cons]
        ring
      · by_cases h3 : normAccount r.account = "cogs"
        · simp [List.foldl_cons, ih, processRow, sumRevenue, sumCogs,
            isRevRow, isCogsRow, h1, h2, h3, List.filter_cons, List.any_cons]
          ring
        · simp [List.foldl_cons, ih, processRow, sumRevenue, sumCogs,
            isRevRow, isCogsRow, h1, h2, h3, List.filter_cons, List.any_cons]
    · simp [List.foldl_cons, ih, processRow, sumRevenue, sumCogs,
        isRevRow, isCogsRow, h1, List.filter_cons, List.any_cons]

/-- The aggregation result in closed form. -/
lemma aggregate_spec (p : String) (rows : List Row) :
    aggregate p rows =
      ⟨sumRevenue p rows, sumCogs p rows,
       rows.any (isRevRow p), rows.any (isCogsRow p)⟩ := by
  simpa using foldl_processRow p rows ⟨0, 0, false, false⟩

/-- Example workbook: the worked example of the spec, rows
("Revenue","Q1",1000), ("COGS","Q1",600), ("Revenue","Q2",500). -/
def wbC1 : Workbook :=
  { dataRows := [⟨.str "Revenue", .str "Q1", .num 1000⟩,
                 ⟨.str "COGS", .str "Q1", .num 600⟩,
                 ⟨.str "Revenue", .str "Q2", .num 500⟩],
    sheets := [] }

/-- C1: for every non-empty trimmed period string P and workbook whose
rows contain at least one revenue row and one cogs row matching P, with
summed revenue positive, the handler succeeds and computes
grossProfit = sumRevenue − sumCogs and
grossProfitMargin = grossProfit / sumRevenue, exactly, the margin a plain
unclamped ratio. -/
theorem C1_gross_profit_margin_exact (P : String) (wb : Workbook)
    (hne : P ≠ "") (htr : jsTrim P = P)
    (hrev : wb.dataRows.any (isRevRow P) = true)
    (hcogs : wb.dataRows.any (isCogsRow P) = true)
    (hpos : 0 < sumRevenue P wb.dataRows) :
    (runGpmCalculation P wb).1 =
      GpmResult.success P (sumRevenue P wb.dataRows) (sumCogs P wb.dataRows)
        (sumRevenue P wb.dataRows - sumCogs P wb.dataRows)
        ((sumRevenue P wb.dataRows - sumCogs P wb.dataRows) /
          sumRevenue P wb.dataRows) := by
  have hblank : ¬(P = "" ∨ jsTrim P = "") := by
    rintro (h | h)
    · exact hne h
    · rw [htr] at h; exact hne h
  simp [runGpmCalculation, hblank, hne, htr, aggregate_spec, hrev, hcogs,
    hpos.not_le]

/-- Witness for C1 at the worked example of the spec: period "Q1" yields
revenue 1000, cogs 600, gross profit 400, margin 2/5. -/
theorem C1_gross_profit_margin_exact_witness :
    (runGpmCalculation "Q1" wbC1).1 =
      GpmResult.success "Q1" 1000 600 400 (2 / 5) := by
  have hs : sumRevenue "Q1" wbC1.dataRows = 1000 := by
    simp +decide [sumRevenue, wbC1, currentAmountOf]
  have hc : sumCogs "Q1" wbC1.dataRows = 600 := by
    simp +decide [sumCogs, wbC1, currentAmountOf]
  have h := C1_gross_profit_margin_exact "Q1" wbC1 (by decide) (by decide)
    (by decide) (by decide) (by rw [hs]; norm_num)
  rw [h, hs, hc]
  norm_num

/-- C2: a blank (empty or whitespace-only) period field yields the
validation error with an empty host-operation trace and an unchanged
workbook; otherwise only the trimmed value of the period field matters:
two inputs with the same trimmed value behave identically. -/
theorem C2_validation_and_trimming (p : String) (wb : Workbook) :
    (jsTrim p = "" →
      runGpmCalculation p wb = (GpmResult.validationError, [], wb)) ∧
    (∀ q : String, jsTrim p = jsTrim q → jsTrim p ≠ "" →
      runGpmCalculation p wb = runGpmCalculation q wb) := by
  constructor
  · intro h
    simp [runGpmCalculation, h]
  · intro q h1 h2
    have hb1 : ¬(p = "" ∨ jsTrim p = "") := by
      rintro (h | h)
      · exact h2 (by rw [h]; rfl)
      · exact h2 h
    have hb2 : ¬(q = "" ∨ jsTrim q = "") := by
      rintro (h | h)
      · exact h2 (by rw [h1, h]; rfl)
      · exact h2 (h1 ▸ h)
    unfold runGpmCalculation
    rw [if_neg hb1, if_neg hb2, h1]

/-- Witness for C2: a whitespace-only period gives the validation error
and no host-document operation, and " Q1 " behaves exactly like "Q1". -/
theorem C2_validation_and_trimming_witness :
    runGpmCalculation " " wbC1 = (GpmResult.validationError, [], wbC1) ∧
    runGpmCalculation " Q1 " wbC1 = runGpmCalculation "Q1" wbC1 :=
  ⟨(C2_validation_and_trimming " " wbC1).1 (by decide),
   (C2_validation_and_trimming " Q1 " wbC1).2 "Q1" (by decide) (by decide)⟩

/-- Workbook with a cogs row but no revenue row for period "Q1". -/
def wbNoRev : Workbook :=
  { dataRows := [⟨.str "COGS", .str "Q1", .num 600⟩], sheets := [] }

/-- Workbook with a revenue row but no cogs row for period "Q1". -/
def wbNoCogs : Workbook :=
  { dataRows := [⟨.str "Revenue", .str "Q1", .num 1000⟩], sheets := [] }

/-- C3: with no revenue row matching the trimmed period the handler stops
with the no-revenue error, whose message names the period, before any
calculation or write (trace is the read only, workbook unchanged); the
revenue check comes first, and with revenue present but no cogs row the
analogous no-cogs error is reported. -/
theorem C3_zero_data_errors (p : String) (wb : Workbook)
    (hne : ¬(p = "" ∨ jsTrim p = "")) :
    (wb.dataRows.any (isRevRow (jsTrim p)) = false →
      runGpmCalculation p wb =
        (GpmResult.noRevenue (jsTrim p),
         [DocOp.readTable "DataSheet" "InputData"], wb) ∧
      occursIn (jsTrim p) (statusMessage (GpmResult.noRevenue (jsTrim p)))) ∧
    (wb.dataRows.any (isRevRow (jsTrim p)) = true →
      wb.dataRows.any (isCogsRow (jsTrim p)) = false →
      runGpmCalculation p wb =
        (GpmResult.noCogs (jsTrim p),
         [DocOp.readTable "DataSheet" "InputData"], wb) ∧
      occursIn (jsTrim p) (statusMessage (GpmResult.noCogs (jsTrim p)))) := by
  constructor
  · intro h
    constructor
    · simp [runGpmCalculation, hne, aggregate_spec, h]
    · exact ⟨"Error: No \x27Revenue\x27 found for period ", ".", rfl⟩
  · intro h1 h2
    constructor
    · simp [runGpmCalculation, hne, aggregate_spec, h1, h2]
    · exact ⟨"Error: No \x27COGS\x27 found for period ", ".", rfl⟩

/-- Witness for C3: period "Q1" against a cogs-only table gives the
no-revenue error; against a revenue-only table it gives the no-cogs
error. -/
theorem C3_zero_data_errors_witness :
    runGpmCalculation "Q1" wbNoRev =
      (GpmResult.noRevenue "Q1",
       [DocOp.readTable "DataSheet" "InputData"], wbNoRev) ∧
    runGpmCalculation "Q1" wbNoCogs =
      (GpmResult.noCogs "Q1",
       [DocOp.readTable "DataSheet" "InputData"], wbNoCogs) := by
  have h1 := ((C3_zero_data_errors "Q1" wbNoRev (by decide)).1 (by decide)).1
  have h2 := ((C3_zero_data_errors "Q1" wbNoCogs (by decide)).2 (by decide)
    (by decide)).1
  rw [show jsTrim "Q1" = "Q1" from by decide] at h1 h2
  exact ⟨h1, h2⟩

/-- Workbook whose only revenue row for "Q1" has amount 0. -/
def wbZeroRev : Workbook :=
  { dataRows := [⟨.str "Revenue", .str "Q1", .num 0⟩,
                 ⟨.str "COGS", .str "Q1", .num 600⟩],
    sheets := [] }

/-- C4: when revenue and cogs rows exist but the accumulated revenue is
not positive, the handler stops with the invalid-margin error, the trace
holds only the table read (no sheet write, delete or create) and the
workbook is unchanged; moreover a success result always carries a
positive revenue, so the division is only reached with revenue > 0. -/
theorem C4_non_positive_revenue_guard (p : String) (wb : Workbook) :
    (¬(p = "" ∨ jsTrim p = "") →
      wb.dataRows.any (isRevRow (jsTrim p)) = true →
      wb.dataRows.any (isCogsRow (jsTrim p)) = true →
      sumRevenue (jsTrim p) wb.dataRows ≤ 0 →
      runGpmCalculation p wb =
        (GpmResult.nonPositiveRevenue (sumRevenue (jsTrim p) wb.dataRows)
           (jsTrim p),
         [DocOp.readTable "DataSheet" "InputData"], wb)) ∧
    (∀ P r c g m,
      (runGpmCalculation p wb).1 = GpmResult.success P r c g m → 0 < r) := by
  constructor
  · intro hne hrev hcogs hle
    simp [runGpmCalculation, hne, aggregate_spec, hrev, hcogs, hle]
  · intro P r c g m h
    by_cases hb : (p = "" ∨ jsTrim p = "")
    · simp [runGpmCalculation, hb] at h
    · cases hfr : (aggregate (jsTrim p) wb.dataRows).foundRevenue
      · simp [runGpmCalculation, hb, hfr] at h
      · cases hfc : (aggregate (jsTrim p) wb.dataRows).foundCogs
        · simp [runGpmCalculation, hb, hfr, hfc] at h
        · by_cases hle : (aggregate (jsTrim p) wb.dataRows).revenue ≤ 0
          · simp [runGpmCalculation, hb, hfr, hfc, hle] at h
          · have hr : (aggregate (jsTrim p) wb.dataRows).revenue = r := by
              simp [runGpmCalculation, hb, hfr, hfc, hle] at h
              exact h.2.1
            rw [← hr]
            exact lt_of_not_le hle

/-- Witness for C4: the zero-amount-revenue workbook yields the
invalid-margin error with revenue 0 and no write or delete operation. -/
theorem C4_non_positive_revenue_guard_witness :
    runGpmCalculation "Q1" wbZeroRev =
      (GpmResult.nonPositiveRevenue 0 "Q1",
       [DocOp.readTable "DataSheet" "InputData"], wbZeroRev) := by
  have hs : sumRevenue "Q1" wbZeroRev.dataRows = 0 := by
    simp +decide [sumRevenue, wbZeroRev, currentAmountOf]
  have h := (C4_non_positive_revenue_guard "Q1" wbZeroRev).1 (by decide)
    (by decide) (by decide)
    (by rw [show jsTrim "Q1" = "Q1" from by decide, hs])
  rw [show jsTrim "Q1" = "Q1" from by decide, hs] at h
  exact h

/-- C5: a non-numeric amount cell is coerced to 0 and contributes nothing
to either running sum, whatever account and period the row has. -/
theorem C5_non_numeric_amounts (c : CellVal)
    (h : ∀ q : ℚ, c ≠ CellVal.num q) :
    currentAmountOf c = 0 ∧
    ∀ (p : String) (acc : Agg) (a per : CellVal),
      (processRow p acc ⟨a, per, c⟩).revenue = acc.revenue ∧
      (processRow p acc ⟨a, per, c⟩).cogs = acc.cogs := by
  have h0 : currentAmountOf c = 0 := by
    cases c with
    | num q => exact absurd rfl (h q)
    | str s => rfl
    | boolean b => rfl
    | null => rfl
  refine ⟨h0, ?_⟩
  intro p acc a per
  unfold processRow
  split
  · split
    · simp [h0]
    · split
      · simp [h0]
      · exact ⟨rfl, rfl⟩
  · exact ⟨rfl, rfl⟩

/-- Witness for C5: a textual amount cell on a matching revenue row
contributes nothing to the sums. -/
theorem C5_non_numeric_amounts_witness :
    currentAmountOf (CellVal.str "N/A") = 0 ∧
    (processRow "Q1" ⟨5, 7, true, true⟩
        ⟨.str "Revenue", .str "Q1", .str "N/A"⟩).revenue = 5 ∧
    (processRow "Q1" ⟨5, 7, true, true⟩
        ⟨.str "Revenue", .str "Q1", .str "N/A"⟩).cogs = 7 := by
  have h := C5_non_numeric_amounts (CellVal.str "N/A")
    (fun q hq => CellVal.noConfusion hq)
  exact ⟨h.1, h.2 "Q1" ⟨5, 7, true, true⟩ (.str "Revenue") (.str "Q1")⟩

/-- C6: account labels are matched after trimming and lower-casing (so
"Revenue " and " cogs" still match), rows with any other label leave the
state unchanged, and one row never feeds both buckets. -/
theorem C6_account_normalization (p : String) :
    (∀ (acc : Agg) (s : String) (per amt : CellVal),
      jsToLower (jsTrim s) = "revenue" → normPeriod per = p →
      processRow p acc ⟨.str s, per, amt⟩ =
        { acc with revenue := acc.revenue + currentAmountOf amt,
                   foundRevenue := true }) ∧
    (∀ (acc : Agg) (s : String) (per amt : CellVal),
      jsToLower (jsTrim s) = "cogs" → normPeriod per = p →
      processRow p acc ⟨.str s, per, amt⟩ =
        { acc with cogs := acc.cogs + currentAmountOf amt,
                   foundCogs := true }) ∧
    (∀ (acc : Agg) (row : Row),
      normAccount row.account ≠ "revenue" →
      normAccount row.account ≠ "cogs" →
      processRow p acc row = acc) ∧
    (∀ (acc : Agg) (row : Row),
      (processRow p acc row).revenue = acc.revenue ∨
      (processRow p acc row).cogs = acc.cogs) := by
  refine ⟨?_, ?_, ?_, ?_⟩
  · intro acc s per amt h hper
    by_cases hs : s = ""
    · subst hs; exact absurd h (by decide)
    · simp [processRow, normAccount, jsTruthy, jsString, hs, h, hper]
  · intro acc s per amt h hper
    by_cases hs : s = ""
    · subst hs; exact absurd h (by decide)
    · simp +decide [processRow, normAccount, jsTruthy, jsString, hs, h, hper]
  · intro acc row h1 h2
    simp [processRow, h1, h2]
  · intro acc row
    unfold processRow
    split
    · split
      · right; rfl
      · split
        · left; rfl
        · left; rfl
    · left; rfl

/-- Witness for C6: "Revenue " (trailing space) and " cogs" (leading
space) both match for period "Q1". -/
theorem C6_account_normalization_witness :
    processRow "Q1" ⟨0, 0, false, false⟩
        ⟨.str "Revenue ", .str "Q1", .num 7⟩ = ⟨0 + 7, 0, true, false⟩ ∧
    processRow "Q1" ⟨0, 0, false, false⟩
        ⟨.str " cogs", .str "Q1", .num 3⟩ = ⟨0, 0 + 3, false, true⟩ := by
  have h := C6_account_normalization "Q1"
  exact ⟨h.1 ⟨0, 0, false, false⟩ "Revenue " (.str "Q1") (.num 7)
           (by decide) (by decide),
         h.2.1 ⟨0, 0, false, false⟩ " cogs" (.str "Q1") (.num 3)
           (by decide) (by decide)⟩

/-- Permuting the table rows does not change the aggregation result. -/
lemma aggregate_perm (p : String) (rows rows' : List Row)
    (h : rows.Perm rows') : aggregate p rows = aggregate p rows' := by
  rw [aggregate_spec, aggregate_spec]
  have hany : ∀ f : Row → Bool, rows.any f = rows'.any f := by
    intro f
    rw [Bool.eq_iff_iff]
    simp only [List.any_eq_true]
    exact ⟨fun ⟨x, hx, hp⟩ => ⟨x, h.mem_iff.mp hx, hp⟩,
           fun ⟨x, hx, hp⟩ => ⟨x, h.mem_iff.mpr hx, hp⟩⟩
  have hsum : ∀ f : Row → Bool,
      ((rows.filter f).map (fun r => currentAmountOf r.amount)).sum =
        ((rows'.filter f).map (fun r => currentAmountOf r.amount)).sum :=
    fun f => ((h.filter f).map _).sum_eq
  simp only [sumRevenue, sumCogs, hany, hsum]

/-- C7: aggregation is order-independent: permuting the rows leaves the
sums and the found flags unchanged, and therefore the computed
outcome (including gross profit and margin) as well. -/
theorem C7_order_independence (p : String) (rows rows' : List Row)
    (hperm : rows.Perm rows') :
    (∀ P, aggregate P rows = aggregate P rows') ∧
    ∀ (wb wb' : Workbook), wb.dataRows = rows → wb'.dataRows = rows' →
      (runGpmCalculation p wb).1 = (runGpmCalculation p wb').1 := by
  refine ⟨fun P => aggregate_perm P rows rows' hperm, ?_⟩
  intro wb wb' hw hw'
  have ha : aggregate (jsTrim p) wb.dataRows =
      aggregate (jsTrim p) wb'.dataRows := by
    rw [hw, hw']; exact aggregate_perm _ rows rows' hperm
  by_cases hb : (p = "" ∨ jsTrim p = "")
  · simp [runGpmCalculation, hb]
  · cases hfr : (aggregate (jsTrim p) wb'.dataRows).foundRevenue
    · simp [runGpmCalculation, hb, ha, hfr]
    · cases hfc : (aggregate (jsTrim p) wb'.dataRows).foundCogs
      · simp [runGpmCalculation, hb, ha, hfr, hfc]
      · by_cases hle : (aggregate (jsTrim p) wb'.dataRows).revenue ≤ 0
        · simp [runGpmCalculation, hb, ha, hfr, hfc, hle]
        · simp [runGpmCalculation, hb, ha, hfr, hfc, hle]

/-- The worked-example workbook with its rows in reverse order. -/
def wbC1r : Workbook :=
  { dataRows := wbC1.dataRows.reverse, sheets := [] }

/-- Witness for C7: the worked example gives the same aggregation and the
same outcome with its rows reversed. -/
theorem C7_order_independence_witness :
    aggregate "Q1" wbC1.dataRows = aggregate "Q1" wbC1.dataRows.reverse ∧
    (runGpmCalculation "Q1" wbC1).1 = (runGpmCalculation "Q1" wbC1r).1 := by
  have h := C7_order_independence "Q1" wbC1.dataRows wbC1.dataRows.reverse
    (List.reverse_perm _).symm
  exact ⟨h.1 "Q1", h.2 wbC1 wbC1r rfl rfl⟩

/-- On the success path the outcome component of the handler carries the
trimmed period, the two sums, their difference and the exact ratio. -/
lemma runGpm_fst_success (p : String) (wb : Workbook)
    (hb : ¬(p = "" ∨ jsTrim p = ""))
    (hfr : (aggregate (jsTrim p) wb.dataRows).foundRevenue = true)
    (hfc : (aggregate (jsTrim p) wb.dataRows).foundCogs = true)
    (hle : ¬(aggregate (jsTrim p) wb.dataRows).revenue ≤ 0) :
    (runGpmCalculation p wb).1 =
      GpmResult.success (jsTrim p)
        (aggregate (jsTrim p) wb.dataRows).revenue
        (aggregate (jsTrim p) wb.dataRows).cogs
        ((aggregate (jsTrim p) wb.dataRows).revenue -
          (aggregate (jsTrim p) wb.dataRows).cogs)
        (((aggregate (jsTrim p) wb.dataRows).revenue -
          (aggregate (jsTrim p) wb.dataRows).cogs) /
          (aggregate (jsTrim p) wb.dataRows).revenue) := by
  simp [runGpmCalculation, hb, hfr, hfc, hle]

/-- On the success path the final workbook is the input workbook with the
sheet `GPM_<trimmed period>` replaced by the fresh output block. -/
lemma runGpm_wb_success (p : String) (wb : Workbook)
    (hb : ¬(p = "" ∨ jsTrim p = ""))
    (hfr : (aggregate (jsTrim p) wb.dataRows).foundRevenue = true)
    (hfc : (aggregate (jsTrim p) wb.dataRows).foundCogs = true)
    (hle : ¬(aggregate (jsTrim p) wb.dataRows).revenue ≤ 0) :
    (runGpmCalculation p wb).2.2 =
      addSheetW
        (if sheetExists wb ("GPM_" ++ jsTrim p) = true
         then deleteSheetW wb ("GPM_" ++ jsTrim p) else wb)
        ("GPM_" ++ jsTrim p)
        (outputData (jsTrim p)
          (aggregate (jsTrim p) wb.dataRows).revenue
          (aggregate (jsTrim p) wb.dataRows).cogs
          ((aggregate (jsTrim p) wb.dataRows).revenue -
            (aggregate (jsTrim p) wb.dataRows).cogs)
          (((aggregate (jsTrim p) wb.dataRows).revenue -
            (aggregate (jsTrim p) wb.dataRows).cogs) /
            (aggregate (jsTrim p) wb.dataRows).revenue)) := by
  simp [runGpmCalculation, hb, hfr, hfc, hle]

/-- On the success path the trace contains the write of the output block
to range A1:B7 of the output sheet. -/
lemma runGpm_trace_success (p : String) (wb : Workbook)
    (hb : ¬(p = "" ∨ jsTrim p = ""))
    (hfr : (aggregate (jsTrim p) wb.dataRows).foundRevenue = true)
    (hfc : (aggregate (jsTrim p) wb.dataRows).foundCogs = true)
    (hle : ¬(aggregate (jsTrim p) wb.dataRows).revenue ≤ 0) :
    DocOp.writeRange ("GPM_" ++ jsTrim p) "A1:B7"
        (outputData (jsTrim p)
          (aggregate (jsTrim p) wb.dataRows).revenue
          (aggregate (jsTrim p) wb.dataRows).cogs
          ((aggregate (jsTrim p) wb.dataRows).revenue -
            (aggregate (jsTrim p) wb.dataRows).cogs)
          (((aggregate (jsTrim p) wb.dataRows).revenue -
            (aggregate (jsTrim p) wb.dataRows).cogs) /
            (aggregate (jsTrim p) wb.dataRows).revenue)) ∈
      (runGpmCalculation p wb).2.1 := by
  simp [runGpmCalculation, hb, hfr, hfc, hle]

/-- A success outcome determines all path conditions and its payload. -/
lemma runGpm_success_inv (p : String) (wb : Workbook) (P : String)
    (r c g m : ℚ)
    (h : (runGpmCalculation p wb).1 = GpmResult.success P r c g m) :
    ¬(p = "" ∨ jsTrim p = "") ∧
    (aggregate (jsTrim p) wb.dataRows).foundRevenue = true ∧
    (aggregate (jsTrim p) wb.dataRows).foundCogs = true ∧
    ¬(aggregate (jsTrim p) wb.dataRows).revenue ≤ 0 ∧
    P = jsTrim p ∧
    r = (aggregate (jsTrim p) wb.dataRows).revenue ∧
    c = (aggregate (jsTrim p) wb.dataRows).cogs ∧
    g = (aggregate (jsTrim p) wb.dataRows).revenue -
          (aggregate (jsTrim p) wb.dataRows).cogs ∧
    m = ((aggregate (jsTrim p) wb.dataRows).revenue -
          (aggregate (jsTrim p) wb.dataRows).cogs) /
          (aggregate (jsTrim p) wb.dataRows).revenue := by
  by_cases hb : (p = "" ∨ jsTrim p = "")
  · simp [runGpmCalculation, hb] at h
  · cases hfr : (aggregate (jsTrim p) wb.dataRows).foundRevenue
    · simp [runGpmCalculation, hb, hfr] at h
    · cases hfc : (aggregate (jsTrim p) wb.dataRows).foundCogs
      · simp [runGpmCalculation, hb, hfr, hfc] at h
      · by_cases hle : (aggregate (jsTrim p) wb.dataRows).revenue ≤ 0
        · simp [runGpmCalculation, hb, hfr, hfc, hle] at h
        · simp [runGpmCalculation, hb, hfr, hfc, hle] at h
          exact ⟨hb, rfl, rfl, hle, h.1.symm, h.2.1.symm, h.2.2.1.symm,
            h.2.2.2.1.symm, h.2.2.2.2.symm⟩

/-- C8: every successful invocation targets the sheet named
GPM_<trimmed period> and its final workbook carries, as the freshly added
sheet, the fixed 7-row 2-column block anchored at A1:B7: the period label
row, a blank spacer row, the Metric/Value header, then the Revenue, COGS,
Gross Profit and Gross Profit Margin rows; the trace contains the A1:B7
write of that block. -/
theorem C8_output_sheet_layout (p : String) (wb : Workbook) (P : String)
    (r c g m : ℚ)
    (h : (runGpmCalculation p wb).1 = GpmResult.success P r c g m) :
    P = jsTrim p ∧
    (runGpmCalculation p wb).2.2.sheets.head? =
      some ("GPM_" ++ jsTrim p,
        [ [CellVal.str "Period:", CellVal.str (jsTrim p)],
          [CellVal.null, CellVal.null],
          [CellVal.str "Metric", CellVal.str "Value"],
          [CellVal.str "Revenue", CellVal.num r],
          [CellVal.str "COGS", CellVal.num c],
          [CellVal.str "Gross Profit", CellVal.num g],
          [CellVal.str "Gross Profit Margin", CellVal.num m] ]) ∧
    DocOp.writeRange ("GPM_" ++ jsTrim p) "A1:B7"
        (outputData (jsTrim p) r c g m) ∈ (runGpmCalculation p wb).2.1 := by
  obtain ⟨hb, hfr, hfc, hle, hP, hr, hc2, hg, hm⟩ :=
    runGpm_success_inv p wb P r c g m h
  subst hP hr hc2 hg hm
  refine ⟨rfl, ?_, ?_⟩
  · rw [runGpm_wb_success p wb hb hfr hfc hle]
    simp [addSheetW, outputData]
  · exact runGpm_trace_success p wb hb hfr hfc hle

/-- The aggregation on the worked example for "Q1" in closed form. -/
lemma aggregate_wbC1 :
    aggregate (jsTrim "Q1") wbC1.dataRows = ⟨1000, 600, true, true⟩ := by
  have hs : sumRevenue "Q1" wbC1.dataRows = 1000 := by
    simp +decide [sumRevenue, wbC1, currentAmountOf]
  have hc : sumCogs "Q1" wbC1.dataRows = 600 := by
    simp +decide [sumCogs, wbC1, currentAmountOf]
  rw [show jsTrim "Q1" = "Q1" from by decide, aggregate_spec, hs, hc]
  simp +decide [Agg.mk.injEq]

/-- The worked example reaches the success path with revenue 1000,
cogs 600, gross profit 400 and margin 400/1000. -/
lemma runGpm_wbC1_success :
    (runGpmCalculation "Q1" wbC1).1 =
      GpmResult.success (jsTrim "Q1")
        (aggregate (jsTrim "Q1") wbC1.dataRows).revenue
        (aggregate (jsTrim "Q1") wbC1.dataRows).cogs
        ((aggregate (jsTrim "Q1") wbC1.dataRows).revenue -
          (aggregate (jsTrim "Q1") wbC1.dataRows).cogs)
        (((aggregate (jsTrim "Q1") wbC1.dataRows).revenue -
          (aggregate (jsTrim "Q1") wbC1.dataRows).cogs) /
          (aggregate (jsTrim "Q1") wbC1.dataRows).revenue) :=
  runGpm_fst_success "Q1" wbC1 (by decide)
    (by rw [aggregate_wbC1]) (by rw [aggregate_wbC1])
    (by rw [aggregate_wbC1]; norm_num)

/-- Witness for C8: on the worked example the final workbook has
sheet "GPM_Q1" in front, holding the 7 by 2 block with revenue 1000,
cogs 600, gross profit 400 and margin 2/5, and the A1:B7 write appears in
the trace. -/
theorem C8_output_sheet_layout_witness :
    (runGpmCalculation "Q1" wbC1).2.2.sheets.head? =
      some ("GPM_Q1",
        [ [CellVal.str "Period:", CellVal.str "Q1"],
          [CellVal.null, CellVal.null],
          [CellVal.str "Metric", CellVal.str "Value"],
          [CellVal.str "Revenue", CellVal.num 1000],
          [CellVal.str "COGS", CellVal.num 600],
          [CellVal.str "Gross Profit", CellVal.num 400],
          [CellVal.str "Gross Profit Margin", CellVal.num (2 / 5)] ]) ∧
    DocOp.writeRange "GPM_Q1" "A1:B7" (outputData "Q1" 1000 600 400 (2 / 5)) ∈
      (runGpmCalculation "Q1" wbC1).2.1 := by
  have h8 := C8_output_sheet_layout "Q1" wbC1 (jsTrim "Q1") _ _ _ _
    runGpm_wbC1_success
  obtain ⟨-, hhead, hmem⟩ := h8
  rw [aggregate_wbC1] at hhead hmem
  rw [show jsTrim "Q1" = "Q1" from by decide] at hhead hmem
  rw [show ("GPM_" ++ "Q1" : String) = "GPM_Q1" from by decide] at hhead hmem
  norm_num at hhead hmem
  exact ⟨hhead, hmem⟩

/-- C9: after a successful run, running the handler again with the same
period and the unchanged input table succeeds with the identical outcome,
puts the identical output block on the sheet GPM_<trimmed period>, and
leaves exactly one sheet of that name (the old one is deleted and
replaced, not duplicated). -/
theorem C9_idempotent_per_period (p : String) (wb : Workbook) (P : String)
    (r c g m : ℚ)
    (h : (runGpmCalculation p wb).1 = GpmResult.success P r c g m) :
    (runGpmCalculation p ((runGpmCalculation p wb).2.2)).1 =
      (runGpmCalculation p wb).1 ∧
    (runGpmCalculation p ((runGpmCalculation p wb).2.2)).2.2.sheets.head? =
      ((runGpmCalculation p wb).2.2).sheets.head? ∧
    ((runGpmCalculation p ((runGpmCalculation p wb).2.2)).2.2.sheets.countP
      (fun s => s.1 = "GPM_" ++ jsTrim p)) = 1 := by
  obtain ⟨hb, hfr, hfc, hle, hP, hr, hc2, hg, hm⟩ :=
    runGpm_success_inv p wb P r c g m h
  have hwb1 := runGpm_wb_success p wb hb hfr hfc hle
  have hdr : ((runGpmCalculation p wb).2.2).dataRows = wb.dataRows := by
    rw [hwb1]
    by_cases hex : sheetExists wb ("GPM_" ++ jsTrim p) = true <;>
      simp [hex, addSheetW, deleteSheetW]
  have hagg : aggregate (jsTrim p) ((runGpmCalculation p wb).2.2).dataRows =
      aggregate (jsTrim p) wb.dataRows := by rw [hdr]
  have hfr2 : (aggregate (jsTrim p)
      ((runGpmCalculation p wb).2.2).dataRows).foundRevenue = true := by
    rw [hagg]; exact hfr
  have hfc2 : (aggregate (jsTrim p)
      ((runGpmCalculation p wb).2.2).dataRows).foundCogs = true := by
    rw [hagg]; exact hfc
  have hle2 : ¬(aggregate (jsTrim p)
      ((runGpmCalculation p wb).2.2).dataRows).revenue ≤ 0 := by
    rw [hagg]; exact hle
  have h1 := runGpm_fst_success p ((runGpmCalculation p wb).2.2)
    hb hfr2 hfc2 hle2
  have h2 := runGpm_wb_success p ((runGpmCalculation p wb).2.2)
    hb hfr2 hfc2 hle2
  have hex2 : sheetExists ((runGpmCalculation p wb).2.2)
      ("GPM_" ++ jsTrim p) = true := by
    rw [hwb1]; simp [addSheetW, sheetExists]
  refine ⟨?_, ?_, ?_⟩
  · rw [h1, runGpm_fst_success p wb hb hfr hfc hle, hagg]
  · rw [h2]
    conv_rhs => rw [hwb1]
    simp only [addSheetW, hex2, if_true, deleteSheetW, List.head?_cons, hagg]
  · rw [h2]
    simp only [addSheetW, hex2, if_true, deleteSheetW, List.countP_cons]
    have hz : (((runGpmCalculation p wb).2.2).sheets.filter
        (fun s => !(s.1 = "GPM_" ++ jsTrim p))).countP
        (fun s => s.1 = "GPM_" ++ jsTrim p) = 0 := by
      rw [List.countP_eq_zero]
      intro a ha
      have hmem := List.mem_filter.mp ha
      simpa using hmem.2
    rw [hz]
    simp

/-- Witness for C9: on the worked example a second run for "Q1" returns
the same outcome, leaves the same sheet contents in front, and exactly
one sheet named GPM_Q1. -/
theorem C9_idempotent_per_period_witness :
    (runGpmCalculation "Q1" ((runGpmCalculation "Q1" wbC1).2.2)).1 =
      (runGpmCalculation "Q1" wbC1).1 ∧
    (runGpmCalculation "Q1"
        ((runGpmCalculation "Q1" wbC1).2.2)).2.2.sheets.head? =
      ((runGpmCalculation "Q1" wbC1).2.2).sheets.head? ∧
    ((runGpmCalculation "Q1"
        ((runGpmCalculation "Q1" wbC1).2.2)).2.2.sheets.countP
      (fun s => s.1 = "GPM_" ++ jsTrim "Q1")) = 1 :=
  C9_idempotent_per_period "Q1" wbC1 (jsTrim "Q1") _ _ _ _
    runGpm_wbC1_success

/-- C10: the found flags depend only on row presence, not on amounts:
with at least one revenue row matching the trimmed period the handler
never reports the no-revenue error, and when cogs rows are also present
but every matching revenue row has (coerced) amount 0, it takes the
non-positive-revenue error path with revenue 0. -/
theorem C10_found_by_presence (p : String) (wb : Workbook)
    (hne : ¬(p = "" ∨ jsTrim p = ""))
    (hrev : wb.dataRows.any (isRevRow (jsTrim p)) = true) :
    (∀ P, (runGpmCalculation p wb).1 ≠ GpmResult.noRevenue P) ∧
    (wb.dataRows.any (isCogsRow (jsTrim p)) = true →
      (∀ r ∈ wb.dataRows, isRevRow (jsTrim p) r = true →
        currentAmountOf r.amount = 0) →
      runGpmCalculation p wb =
        (GpmResult.nonPositiveRevenue 0 (jsTrim p),
         [DocOp.readTable "DataSheet" "InputData"], wb)) := by
  have hfr : (aggregate (jsTrim p) wb.dataRows).foundRevenue = true := by
    rw [aggregate_spec]; exact hrev
  constructor
  · intro P hcontra
    cases hfc : (aggregate (jsTrim p) wb.dataRows).foundCogs
    · simp [runGpmCalculation, hne, hfr, hfc] at hcontra
    · by_cases hle : (aggregate (jsTrim p) wb.dataRows).revenue ≤ 0
      · simp [runGpmCalculation, hne, hfr, hfc, hle] at hcontra
      · simp [runGpmCalculation, hne, hfr, hfc, hle] at hcontra
  · intro hcogs hzero
    have hs : sumRevenue (jsTrim p) wb.dataRows = 0 := by
      apply List.sum_eq_zero
      intro x hx
      simp only [List.mem_map] at hx
      obtain ⟨r, hr, hxe⟩ := hx
      have hrr := List.mem_filter.mp hr
      rw [← hxe]
      exact hzero r hrr.1 hrr.2
    simp [runGpmCalculation, hne, aggregate_spec, hrev, hcogs, hs]

/-- Witness for C10: on the workbook whose only "Q1" revenue row has
amount 0, the handler reports the non-positive-revenue error, not the
no-revenue error. -/
theorem C10_found_by_presence_witness :
    (∀ P, (runGpmCalculation "Q1" wbZeroRev).1 ≠ GpmResult.noRevenue P) ∧
    runGpmCalculation "Q1" wbZeroRev =
      (GpmResult.nonPositiveRevenue 0 "Q1",
       [DocOp.readTable "DataSheet" "InputData"], wbZeroRev) := by
  have h := C10_found_by_presence "Q1" wbZeroRev (by decide) (by decide)
  refine ⟨h.1, ?_⟩
  have h2 := h.2 (by decide) (by decide)
  rwa [show jsTrim "Q1" = "Q1" from by decide] at h2
